/-
  Verification of the AWS Log Management Review tool
  (aws_log_review.py, report_generator.py, example_usage.py,
   run_complete_analysis.py, scripts/generate_remediation_scripts.py).

  The Python data model (dicts of lists) is embedded as Lean structures;
  Python float arithmetic in the compliance scorer is embedded exactly via
  round-to-nearest-even IEEE-754 binary64 rounding on rationals; shell-script
  text built line by line is embedded as its list of lines.
-/
import Mathlib

set_option linter.unusedVariables false

namespace AwsLogReview

/-! ## Data model (spec.md §3, aws_log_review.py findings dicts) -/

/-- An `Issue` dict as built by the analyzers in aws_log_review.py:
`{'severity': ..., 'description': ..., 'pci_reference': ..., 'recommendation': ...}`. -/
structure Issue where
  severity : String
  description : String
  pci_reference : String
  recommendation : String
deriving Repr, DecidableEq

/-- The `cloudtrail` findings dict (aws_log_review.py, `analyze_cloudtrail`). -/
structure CloudtrailFinding where
  enabled : Bool
  multi_region : Bool
  log_file_validation : Bool
  s3_bucket : Option String
  issues : List Issue
deriving Repr, DecidableEq

/-- The `s3_logging` findings dict (aws_log_review.py, `analyze_s3_logging`). -/
structure S3LoggingFinding where
  buckets_analyzed : Nat
  buckets_with_logging : Nat
  buckets_without_logging : List String
  issues : List Issue
deriving Repr, DecidableEq

/-- The `cloudwatch_logs` findings dict (aws_log_review.py, `analyze_cloudwatch_logs`). -/
structure CloudwatchLogsFinding where
  log_groups : Nat
  log_groups_with_retention : Nat
  log_groups_without_retention : List String
  issues : List Issue
deriving Repr, DecidableEq

/-- The `rds_logging` findings dict (aws_log_review.py, `analyze_rds_logging`). -/
structure RdsLoggingFinding where
  instances : Nat
  instances_with_logging : Nat
  instances_without_logging : List String
  issues : List Issue
deriving Repr, DecidableEq

/-- The `iam_logging` findings dict (aws_log_review.py, `analyze_iam_logging`). -/
structure IamLoggingFinding where
  credential_reports_enabled : Bool
  access_analyzer_enabled : Bool
  issues : List Issue
deriving Repr, DecidableEq

/-- The `all_findings` dict assembled in `run_analysis` (aws_log_review.py):
the five per-service findings dicts plus `timestamp` and `total_issues`. -/
structure FindingsReport where
  cloudtrail : CloudtrailFinding
  s3_logging : S3LoggingFinding
  cloudwatch_logs : CloudwatchLogsFinding
  rds_logging : RdsLoggingFinding
  iam_logging : IamLoggingFinding
  timestamp : String
  total_issues : Nat
deriving Repr, DecidableEq

/-- All issues of a report, in the iteration order of the Python findings dict
(insertion order: cloudtrail, s3_logging, cloudwatch_logs, rds_logging,
iam_logging), as collected by the loops in `generate_report`
(aws_log_review.py) and `calculate_compliance_score` /
`get_non_compliant_requirements` (report_generator.py). -/
def allIssues (f : FindingsReport) : List Issue :=
  f.cloudtrail.issues ++ f.s3_logging.issues ++ f.cloudwatch_logs.issues
    ++ f.rds_logging.issues ++ f.iam_logging.issues

/-! ## Exact model of IEEE-754 binary64 rounding

The compliance scorer computes `100 - (weighted_issues / 50) * 100` in Python
floats.  We model each float operation as the exact rational result rounded to
the binary64 grid with round-to-nearest, ties-to-even.  To keep everything
kernel-computable, values are kept as dyadic numbers `m * 2^E` and the
rounding of a fraction `a / b` is carried out in integer arithmetic.
Subnormals and overflow are outside the range exercised by the scorer and are
not modelled (the binade search has fuel 1100, covering magnitudes below
2^1101; beyond that CPython's int/int division raises OverflowError anyway). -/

/-- A dyadic number `m * 2^E`: the exact value of a binary64 float. -/
structure Dy where
  m : ℤ
  E : ℤ
deriving Repr, DecidableEq

/-- The rational value of a dyadic number. -/
def Dy.toRat (d : Dy) : ℚ := (d.m : ℚ) * (2:ℚ) ^ d.E

/-- Round `a / b` (with `b > 0`) to the nearest integer, ties to even. -/
def rheFrac (a b : ℤ) : ℤ :=
  let n := a.fdiv b
  let r2 := 2 * (a - n * b)
  if r2 < b then n else if b < r2 then n + 1 else if n % 2 = 0 then n else n + 1

/-- For `b ≤ a` (i.e. `a/b ≥ 1`): from exponent `e` with `b * 2^e ≤ a`, find
`e'` with `b * 2^e' ≤ a < b * 2^(e'+1)` by scanning upward (fuel-bounded). -/
def binFindI (a b : ℤ) : ℕ → ℕ → ℕ
  | e, 0 => e
  | e, fuel+1 => if a < b * 2^(e+1) then e else binFindI a b (e+1) fuel

/-- For `0 < a < b` (i.e. `0 < a/b < 1`): find the least `k` with
`b ≤ a * 2^k`, i.e. `2^(-k) ≤ a/b`, by scanning upward (fuel-bounded). -/
def binFindNegI (a b : ℤ) : ℕ → ℕ → ℕ
  | k, 0 => k
  | k, fuel+1 => if b ≤ a * 2^k then k else binFindNegI a b (k+1) fuel

/-- Binade exponent of `a / b` for `a, b > 0`: the `e` with
`2^e ≤ a/b < 2^(e+1)`. -/
def binadeExpI (a b : ℤ) : ℤ :=
  if b ≤ a then (binFindI a b 0 1100 : ℤ) else -(binFindNegI a b 1 1100 : ℤ)

/-- Round the positive fraction `a / b` to the binary64 grid of its binade:
the significand is `a/b * 2^(52-e)` rounded to nearest, ties to even. -/
def roundPosFrac (a b : ℤ) : Dy :=
  let e := binadeExpI a b
  let m := if 0 ≤ 52 - e then rheFrac (a * 2 ^ (52 - e).toNat) b
           else rheFrac a (b * 2 ^ (e - 52).toNat)
  ⟨m, e - 52⟩

/-- Exact model of rounding the rational `a / b` (with `b > 0`) to a Python
float. -/
def roundFrac (a b : ℤ) : Dy :=
  if a = 0 then ⟨0, 0⟩
  else if a < 0 then
    let d := roundPosFrac (-a) b
    ⟨-d.m, d.E⟩
  else roundPosFrac a b

/-- Numerator of the dyadic value `d` written as a fraction with denominator
`dyDen d`. -/
def dyNum (d : Dy) : ℤ := if 0 ≤ d.E then d.m * 2 ^ d.E.toNat else d.m

/-- Denominator (a power of two) of the dyadic value `d`. -/
def dyDen (d : Dy) : ℤ := if 0 ≤ d.E then 1 else 2 ^ (-d.E).toNat

/-! ## Compliance scorer (report_generator.py, `calculate_compliance_score`) -/

/-- Embeds `severity_weights.get(severity, 1)` with
`{'HIGH': 3, 'MEDIUM': 2, 'LOW': 1}`. -/
def severityWeight (s : String) : ℕ :=
  if s = "HIGH" then 3 else if s = "MEDIUM" then 2 else if s = "LOW" then 1 else 1

/-- The `weighted_issues` accumulator of `calculate_compliance_score`:
iterate every per-service issue list, summing the severity weights. -/
def weightedIssues (f : FindingsReport) : ℕ :=
  (allIssues f).foldl (fun acc i => acc + severityWeight i.severity) 0

/-- Embeds `int(max(0, 100 - (weighted_issues / 50) * 100))` with Python float
semantics: `w / 50`, `x * 100` and `100 - y` each round their exact result to
binary64; `max(0, s)` keeps nonpositive results at 0; `int` truncates
(= floor on the nonnegative result). -/
def scoreOfWeight (w : ℕ) : ℤ :=
  let x := roundFrac (w : ℤ) 50
  let y := roundFrac (dyNum x * 100) (dyDen x)
  let s := roundFrac (100 * dyDen y - dyNum y) (dyDen y)
  if s.m ≤ 0 then 0
  else if 0 ≤ s.E then s.m * 2 ^ s.E.toNat else s.m.fdiv (2 ^ (-s.E).toNat)

/-- Embeds `ReportGenerator.calculate_compliance_score` (report_generator.py):
weigh every issue of every service, then score. -/
def calculate_compliance_score (f : FindingsReport) : ℤ :=
  scoreOfWeight (weightedIssues f)

/-! ## Remediation script bodies (aws_log_review.py `_generate_*_script`)

Each Python helper builds a shell script string by concatenating lines
(and, for the per-resource scripts, appending one block per resource with
`+=` of an f-string).  A script is embedded as its list of lines; the Python
string is exactly these lines joined by a newline. -/

/-- Embeds `_generate_cloudtrail_script` (a fixed string literal). -/
def cloudtrailScriptLines : List String :=
  ["#!/bin/bash",
   "# Enable CloudTrail",
   "aws cloudtrail create-trail \\",
   "    --name \"pci-compliance-trail\" \\",
   "    --s3-bucket-name \"your-log-bucket-name\" \\",
   "    --is-multi-region-trail \\",
   "    --enable-log-file-validation",
   "",
   "aws cloudtrail start-logging --name \"pci-compliance-trail\"",
   "",
   "echo \"CloudTrail enabled successfully\""]

/-- Embeds `_generate_multi_region_cloudtrail_script` (a fixed string literal). -/
def multiRegionCloudtrailScriptLines : List String :=
  ["#!/bin/bash",
   "# Enable multi-region CloudTrail",
   "aws cloudtrail update-trail \\",
   "    --name \"pci-compliance-trail\" \\",
   "    --is-multi-region-trail",
   "",
   "echo \"Multi-region CloudTrail enabled\""]

/-- The four lines appended by `_generate_s3_logging_script` for one bucket
(the f-string block, which ends with a blank line). -/
def s3BucketBlockLines (bucket : String) : List String :=
  ["aws s3api put-bucket-logging \\",
   "    --bucket \"" ++ bucket ++ "\" \\",
   "    --bucket-logging-status \x27\x7b\"LoggingEnabled\": \x7b\"TargetBucket\": \"your-log-bucket-name\", \"TargetPrefix\": \""
     ++ bucket ++ "/\"\x7d\x7d\x27",
   ""]

/-- Embeds `_generate_s3_logging_script`: header, one block per bucket (in list
order), then the closing echo. -/
def s3LoggingScriptLines (buckets : List String) : List String :=
  ["#!/bin/bash", "# Enable S3 access logging for buckets"]
    ++ buckets.flatMap s3BucketBlockLines
    ++ ["echo \"S3 access logging enabled for all buckets\""]

/-- The block appended by `_generate_cloudwatch_retention_script` for one
log group. -/
def cloudwatchGroupBlockLines (log_group : String) : List String :=
  ["aws logs put-retention-policy \\",
   "    --log-group-name \"" ++ log_group ++ "\" \\",
   "    --retention-in-days 365",
   ""]

/-- Embeds `_generate_cloudwatch_retention_script`. -/
def cloudwatchRetentionScriptLines (log_groups : List String) : List String :=
  ["#!/bin/bash", "# Set retention policies for CloudWatch log groups"]
    ++ log_groups.flatMap cloudwatchGroupBlockLines
    ++ ["echo \"Retention policies set for all log groups\""]

/-- The block appended by `_generate_rds_logging_script` for one instance. -/
def rdsInstanceBlockLines (inst : String) : List String :=
  ["aws rds modify-db-instance \\",
   "    --db-instance-identifier \"" ++ inst ++ "\" \\",
   "    --enable-cloudwatch-logs-exports \"error,general,slow-query\" \\",
   "    --apply-immediately",
   ""]

/-- Embeds `_generate_rds_logging_script`. -/
def rdsLoggingScriptLines (instances : List String) : List String :=
  ["#!/bin/bash", "# Enable CloudWatch logging for RDS instances"]
    ++ instances.flatMap rdsInstanceBlockLines
    ++ ["echo \"CloudWatch logging enabled for all RDS instances\""]

/-! ## Recommendation deriver (aws_log_review.py, `generate_recommendations`) -/

/-- A recommendation dict as appended by `generate_recommendations`. -/
structure Recommendation where
  priority : String
  category : String
  title : String
  description : String
  pci_reference : String
  script : List String
  estimated_cost : String
deriving Repr, DecidableEq

/-- Embeds `AWSLogReviewer.generate_recommendations`: a fixed sequence of condition
checks, each true condition appending exactly one recommendation. -/
def generate_recommendations (f : FindingsReport) : List Recommendation :=
  (if f.cloudtrail.enabled = false then
    [⟨"HIGH", "CloudTrail", "Enable CloudTrail",
      "Enable CloudTrail for comprehensive API activity logging",
      "10.2.1-10.2.7", cloudtrailScriptLines,
      "Low (CloudTrail is free for first 5GB/month)"⟩]
   else [])
  ++ (if f.cloudtrail.multi_region = false then
    [⟨"MEDIUM", "CloudTrail", "Enable Multi-Region CloudTrail",
      "Enable multi-region CloudTrail for comprehensive coverage",
      "10.2.1-10.2.7", multiRegionCloudtrailScriptLines, "Low"⟩]
   else [])
  ++ (if f.s3_logging.buckets_without_logging ≠ [] then
    [⟨"MEDIUM", "S3", "Enable S3 Access Logging",
      "Enable access logging for "
        ++ toString f.s3_logging.buckets_without_logging.length ++ " S3 buckets",
      "10.2.1", s3LoggingScriptLines f.s3_logging.buckets_without_logging,
      "Low (S3 access logs are inexpensive)"⟩]
   else [])
  ++ (if f.cloudwatch_logs.log_groups_without_retention ≠ [] then
    [⟨"MEDIUM", "CloudWatch", "Set Log Retention Policies",
      "Set retention policies for "
        ++ toString f.cloudwatch_logs.log_groups_without_retention.length ++ " log groups",
      "10.5.1.2",
      cloudwatchRetentionScriptLines f.cloudwatch_logs.log_groups_without_retention,
      "Low (reduces storage costs)"⟩]
   else [])
  ++ (if f.rds_logging.instances_without_logging ≠ [] then
    [⟨"MEDIUM", "RDS", "Enable RDS CloudWatch Logging",
      "Enable CloudWatch logging for "
        ++ toString f.rds_logging.instances_without_logging.length ++ " RDS instances",
      "10.2.1", rdsLoggingScriptLines f.rds_logging.instances_without_logging, "Low"⟩]
   else [])

/-! ## PCI compliance table (aws_log_review.py `generate_report`,
report_generator.py `get_pci_requirements` / `get_non_compliant_requirements`) -/

/-- The static 10-entry `pci_requirements` table (identical in
aws_log_review.py `generate_report` and report_generator.py
`get_pci_requirements`). -/
def pci_requirements : List (String × String) :=
  [("10.2.1", "All individual access to cardholder data"),
   ("10.2.2", "All actions taken by any individual with root or administrative privileges"),
   ("10.2.3", "Access to all audit trails"),
   ("10.2.4", "Invalid logical access attempts"),
   ("10.2.5", "Use of identification and authentication mechanisms"),
   ("10.2.6", "Initialization of the audit logs"),
   ("10.2.7", "Creation and deletion of system-level objects"),
   ("10.5.1.2", "Retain audit trail history for at least one year"),
   ("10.5.2", "Protect audit trail files from unauthorized modifications"),
   ("10.5.3", "Promptly back up audit trail files to a centralized log server")]

/-- The per-requirement status cell of the compliance table rendered by
`generate_report` (aws_log_review.py):
`"✓ Compliant" if req not in [issue['pci_reference'] for issue in all_issues]
else "✗ Non-Compliant"`. -/
def complianceStatus (f : FindingsReport) (req : String) : String :=
  if req ∈ (allIssues f).map (fun i => i.pci_reference) then "✗ Non-Compliant"
  else "✓ Compliant"

/-- Embeds `ReportGenerator.get_non_compliant_requirements` (report_generator.py):
collect each issue's `pci_reference`, skipping empty strings and duplicates,
in first-appearance order. -/
def get_non_compliant_requirements (f : FindingsReport) : List String :=
  (allIssues f).foldl
    (fun acc i =>
      if i.pci_reference ≠ "" ∧ i.pci_reference ∉ acc then acc ++ [i.pci_reference]
      else acc)
    []

/-! ## Service analyzers (aws_log_review.py)

Each analyzer takes the result of its AWS probe: `Except.error e` models the
underlying boto3 call raising an exception whose `str` is `e`, `Except.ok`
carries the returned payload.  The IAM analyzer wraps its two probes in
separate inner try/except blocks, so it takes both results. -/

/-- The data `analyze_cloudtrail` reads from one trail
(`list_trails` + `get_trail` + `get_trail_status`). -/
structure Trail where
  name : String
  s3_bucket_name : String
  is_multi_region_trail : Bool
  log_file_validation_enabled : Bool
  is_logging : Bool
deriving Repr, DecidableEq

/-- The per-trail body of the loop in `analyze_cloudtrail`. -/
def cloudtrailStep (acc : CloudtrailFinding) (t : Trail) : CloudtrailFinding :=
  if t.is_logging then
    let acc := { acc with enabled := true, s3_bucket := some t.s3_bucket_name }
    let acc := if t.is_multi_region_trail then { acc with multi_region := true } else acc
    if t.log_file_validation_enabled then { acc with log_file_validation := true }
    else
      { acc with issues := acc.issues ++
          [⟨"MEDIUM", "Log file validation not enabled for trail " ++ t.name,
            "10.5.2", "Enable log file validation for integrity checking"⟩] }
  else
    { acc with issues := acc.issues ++
        [⟨"HIGH", "CloudTrail " ++ t.name ++ " is not logging",
          "10.2.1-10.2.7", "Enable logging for CloudTrail"⟩] }

/-- Embeds `AWSLogReviewer.analyze_cloudtrail`. -/
def analyze_cloudtrail (probe : Except String (List Trail)) : CloudtrailFinding :=
  let base : CloudtrailFinding := ⟨false, false, false, none, []⟩
  match probe with
  | .error e =>
      { base with issues :=
          [⟨"HIGH", "Error analyzing CloudTrail: " ++ e, "10.2.1-10.2.7",
            "Check CloudTrail permissions and configuration"⟩] }
  | .ok [] =>
      { base with issues :=
          [⟨"HIGH", "No CloudTrail trails found", "10.2.1-10.2.7",
            "Enable CloudTrail for API activity logging"⟩] }
  | .ok (t :: ts) => (t :: ts).foldl cloudtrailStep base

/-- The data `analyze_s3_logging` reads for one bucket: its name and whether
`get_bucket_logging` reports `LoggingEnabled` (the
`NoSuchBucketLoggingConfiguration` branch emits the same issue as the
missing-key branch and is folded into `hasLoggingEnabled = false`). -/
structure S3Bucket where
  name : String
  hasLoggingEnabled : Bool
deriving Repr, DecidableEq

/-- Embeds `AWSLogReviewer.analyze_s3_logging`. -/
def analyze_s3_logging (probe : Except String (List S3Bucket)) : S3LoggingFinding :=
  match probe with
  | .error e =>
      ⟨0, 0, [],
       [⟨"HIGH", "Error analyzing S3 logging: " ++ e, "10.2.1",
         "Check S3 permissions and configuration"⟩]⟩
  | .ok bs =>
      bs.foldl
        (fun acc b =>
          let acc := { acc with buckets_analyzed := acc.buckets_analyzed + 1 }
          if b.hasLoggingEnabled then
            { acc with buckets_with_logging := acc.buckets_with_logging + 1 }
          else
            { acc with
                buckets_without_logging := acc.buckets_without_logging ++ [b.name],
                issues := acc.issues ++
                  [⟨"MEDIUM",
                    "S3 bucket " ++ b.name ++ " does not have access logging enabled",
                    "10.2.1", "Enable access logging for bucket " ++ b.name⟩] })
        (⟨0, 0, [], []⟩ : S3LoggingFinding)

/-- The data `analyze_cloudwatch_logs` reads for one log group. -/
structure LogGroup where
  logGroupName : String
  retentionInDays : Option Nat
deriving Repr, DecidableEq

/-- Embeds `AWSLogReviewer.analyze_cloudwatch_logs`. -/
def analyze_cloudwatch_logs (probe : Except String (List LogGroup)) :
    CloudwatchLogsFinding :=
  match probe with
  | .error e =>
      ⟨0, 0, [],
       [⟨"HIGH", "Error analyzing CloudWatch Logs: " ++ e, "10.2.1",
         "Check CloudWatch Logs permissions and configuration"⟩]⟩
  | .ok gs =>
      gs.foldl
        (fun acc g =>
          let acc := { acc with log_groups := acc.log_groups + 1 }
          match g.retentionInDays with
          | some _ =>
              { acc with log_groups_with_retention := acc.log_groups_with_retention + 1 }
          | none =>
              { acc with
                  log_groups_without_retention :=
                    acc.log_groups_without_retention ++ [g.logGroupName],
                  issues := acc.issues ++
                    [⟨"MEDIUM",
                      "CloudWatch Log Group " ++ g.logGroupName ++ " has no retention policy",
                      "10.5.1.2",
                      "Set retention policy for log group " ++ g.logGroupName⟩] })
        (⟨0, 0, [], []⟩ : CloudwatchLogsFinding)

/-- The data `analyze_rds_logging` reads for one DB instance
(`instance.get('EnableCloudwatchLogsExports')` is truthy iff the list is
nonempty). -/
structure DBInstance where
  db_instance_identifier : String
  enable_cloudwatch_logs_exports : List String
deriving Repr, DecidableEq

/-- Embeds `AWSLogReviewer.analyze_rds_logging`. -/
def analyze_rds_logging (probe : Except String (List DBInstance)) : RdsLoggingFinding :=
  match probe with
  | .error e =>
      ⟨0, 0, [],
       [⟨"HIGH", "Error analyzing RDS logging: " ++ e, "10.2.1",
         "Check RDS permissions and configuration"⟩]⟩
  | .ok is =>
      is.foldl
        (fun acc i =>
          let acc := { acc with instances := acc.instances + 1 }
          if i.enable_cloudwatch_logs_exports ≠ [] then
            { acc with instances_with_logging := acc.instances_with_logging + 1 }
          else
            { acc with
                instances_without_logging :=
                  acc.instances_without_logging ++ [i.db_instance_identifier],
                issues := acc.issues ++
                  [⟨"MEDIUM",
                    "RDS instance " ++ i.db_instance_identifier
                      ++ " does not have CloudWatch logging enabled",
                    "10.2.1",
                    "Enable CloudWatch logging for RDS instance "
                      ++ i.db_instance_identifier⟩] })
        (⟨0, 0, [], []⟩ : RdsLoggingFinding)

/-- Embeds `AWSLogReviewer.analyze_iam_logging`: `credReport` is the result of
`generate_credential_report`, `analyzers` the result of
`list_access_analyzers` (returning the analyzer list).  Both calls sit in
inner try/except blocks whose bare `except:` catches every exception. -/
def analyze_iam_logging (credReport : Except String Unit)
    (analyzers : Except String (List String)) : IamLoggingFinding :=
  let f0 : IamLoggingFinding := ⟨false, false, []⟩
  let f1 : IamLoggingFinding :=
    match credReport with
    | .ok _ => { f0 with credential_reports_enabled := true }
    | .error _ =>
        { f0 with issues := f0.issues ++
            [⟨"MEDIUM", "IAM credential reports not enabled", "10.2.1",
              "Enable IAM credential reports for access monitoring"⟩] }
  match analyzers with
  | .ok l =>
      if l ≠ [] then { f1 with access_analyzer_enabled := true }
      else
        { f1 with issues := f1.issues ++
            [⟨"MEDIUM", "IAM Access Analyzer not enabled", "10.2.1",
              "Enable IAM Access Analyzer for policy analysis"⟩] }
  | .error _ =>
      { f1 with issues := f1.issues ++
          [⟨"MEDIUM", "IAM Access Analyzer not available or enabled", "10.2.1",
            "Enable IAM Access Analyzer for policy analysis"⟩] }

/-- Embeds `AWSLogReviewer.run_analysis`: run the five analyzers in sequence,
assemble `all_findings` (with `total_issues` the sum of the issue-list
lengths) and derive the recommendations. -/
def run_analysis (ctProbe : Except String (List Trail))
    (s3Probe : Except String (List S3Bucket))
    (cwProbe : Except String (List LogGroup))
    (rdsProbe : Except String (List DBInstance))
    (iamCredProbe : Except String Unit)
    (iamAnalyzerProbe : Except String (List String))
    (ts : String) : FindingsReport × List Recommendation :=
  let ct := analyze_cloudtrail ctProbe
  let s3 := analyze_s3_logging s3Probe
  let cw := analyze_cloudwatch_logs cwProbe
  let rds := analyze_rds_logging rdsProbe
  let iam := analyze_iam_logging iamCredProbe iamAnalyzerProbe
  let findings : FindingsReport :=
    ⟨ct, s3, cw, rds, iam, ts,
     ct.issues.length + s3.issues.length + cw.issues.length + rds.issues.length
       + iam.issues.length⟩
  (findings, generate_recommendations findings)

/-! ## Sample findings (example_usage.py, `create_sample_findings`) -/

/-- Embeds `create_sample_findings` (example_usage.py): CloudTrail disabled, 3 of 5
S3 buckets unlogged, 5 of 8 log groups without retention, 2 of 3 RDS
instances unlogged, IAM credential reports and Access Analyzer disabled.
The `timestamp` key is `datetime.now().isoformat()`, so it is a parameter;
`total_issues` is the literal 12. -/
def sampleFindings (ts : String) : FindingsReport :=
  { cloudtrail :=
      { enabled := false
        multi_region := false
        log_file_validation := false
        s3_bucket := none
        issues :=
          [⟨"HIGH", "No CloudTrail trails found", "10.2.1-10.2.7",
            "Enable CloudTrail for API activity logging"⟩] }
    s3_logging :=
      { buckets_analyzed := 5
        buckets_with_logging := 2
        buckets_without_logging := ["bucket1", "bucket2", "bucket3"]
        issues :=
          [⟨"MEDIUM", "S3 bucket bucket1 does not have access logging enabled",
            "10.2.1", "Enable access logging for bucket bucket1"⟩,
           ⟨"MEDIUM", "S3 bucket bucket2 does not have access logging enabled",
            "10.2.1", "Enable access logging for bucket bucket2"⟩,
           ⟨"MEDIUM", "S3 bucket bucket3 does not have access logging enabled",
            "10.2.1", "Enable access logging for bucket bucket3"⟩] }
    cloudwatch_logs :=
      { log_groups := 8
        log_groups_with_retention := 3
        log_groups_without_retention :=
          ["/aws/lambda/app1", "/aws/lambda/app2", "/aws/rds/instance1",
           "/aws/rds/instance2", "/aws/ec2/security"]
        issues :=
          [⟨"MEDIUM", "CloudWatch Log Group /aws/lambda/app1 has no retention policy",
            "10.5.1.2", "Set retention policy for log group /aws/lambda/app1"⟩,
           ⟨"MEDIUM", "CloudWatch Log Group /aws/lambda/app2 has no retention policy",
            "10.5.1.2", "Set retention policy for log group /aws/lambda/app2"⟩,
           ⟨"MEDIUM", "CloudWatch Log Group /aws/rds/instance1 has no retention policy",
            "10.5.1.2", "Set retention policy for log group /aws/rds/instance1"⟩,
           ⟨"MEDIUM", "CloudWatch Log Group /aws/rds/instance2 has no retention policy",
            "10.5.1.2", "Set retention policy for log group /aws/rds/instance2"⟩,
           ⟨"MEDIUM", "CloudWatch Log Group /aws/ec2/security has no retention policy",
            "10.5.1.2", "Set retention policy for log group /aws/ec2/security"⟩] }
    rds_logging :=
      { instances := 3
        instances_with_logging := 1
        instances_without_logging := ["db-instance-1", "db-instance-2"]
        issues :=
          [⟨"MEDIUM", "RDS instance db-instance-1 does not have CloudWatch logging enabled",
            "10.2.1", "Enable CloudWatch logging for RDS instance db-instance-1"⟩,
           ⟨"MEDIUM", "RDS instance db-instance-2 does not have CloudWatch logging enabled",
            "10.2.1", "Enable CloudWatch logging for RDS instance db-instance-2"⟩] }
    iam_logging :=
      { credential_reports_enabled := false
        access_analyzer_enabled := false
        issues :=
          [⟨"MEDIUM", "IAM credential reports not enabled", "10.2.1",
            "Enable IAM credential reports for access monitoring"⟩,
           ⟨"MEDIUM", "IAM Access Analyzer not enabled", "10.2.1",
            "Enable IAM Access Analyzer for policy analysis"⟩] }
    timestamp := ts
    total_issues := 12 }

/-! ## JSON round trip (run_complete_analysis.py `main` dumps `findings` with
`json.dump`; report_generator.py `main` reads it back with `json.load`).
`json.dump`/`json.load` on this data (dicts, lists, strings, booleans,
integers, null) is modelled on the JSON value tree; a parsed findings file is
read back into the same record shape. -/

/-- A JSON value. -/
inductive Json where
  | null : Json
  | bool (b : Bool) : Json
  | num (n : ℤ) : Json
  | str (s : String) : Json
  | arr (xs : List Json) : Json
  | obj (fields : List (String × Json)) : Json

/-- Serialize one issue dict. -/
def issueToJson (i : Issue) : Json :=
  .obj [("severity", .str i.severity), ("description", .str i.description),
        ("pci_reference", .str i.pci_reference),
        ("recommendation", .str i.recommendation)]

/-- Serialize `None` / a string (the `s3_bucket` value). -/
def optStrToJson : Option String → Json
  | none => .null
  | some s => .str s

/-- Serialize the `cloudtrail` findings dict (keys in insertion order). -/
def cloudtrailToJson (c : CloudtrailFinding) : Json :=
  .obj [("enabled", .bool c.enabled), ("multi_region", .bool c.multi_region),
        ("log_file_validation", .bool c.log_file_validation),
        ("s3_bucket", optStrToJson c.s3_bucket),
        ("issues", .arr (c.issues.map issueToJson))]

/-- Serialize the `s3_logging` findings dict. -/
def s3LoggingToJson (s : S3LoggingFinding) : Json :=
  .obj [("buckets_analyzed", .num s.buckets_analyzed),
        ("buckets_with_logging", .num s.buckets_with_logging),
        ("buckets_without_logging", .arr (s.buckets_without_logging.map .str)),
        ("issues", .arr (s.issues.map issueToJson))]

/-- Serialize the `cloudwatch_logs` findings dict. -/
def cloudwatchLogsToJson (c : CloudwatchLogsFinding) : Json :=
  .obj [("log_groups", .num c.log_groups),
        ("log_groups_with_retention", .num c.log_groups_with_retention),
        ("log_groups_without_retention",
         .arr (c.log_groups_without_retention.map .str)),
        ("issues", .arr (c.issues.map issueToJson))]

/-- Serialize the `rds_logging` findings dict. -/
def rdsLoggingToJson (r : RdsLoggingFinding) : Json :=
  .obj [("instances", .num r.instances),
        ("instances_with_logging", .num r.instances_with_logging),
        ("instances_without_logging", .arr (r.instances_without_logging.map .str)),
        ("issues", .arr (r.issues.map issueToJson))]

/-- Serialize the `iam_logging` findings dict. -/
def iamLoggingToJson (i : IamLoggingFinding) : Json :=
  .obj [("credential_reports_enabled", .bool i.credential_reports_enabled),
        ("access_analyzer_enabled", .bool i.access_analyzer_enabled),
        ("issues", .arr (i.issues.map issueToJson))]

/-- Serialize a findings report as written to `findings.json`. -/
def findingsToJson (f : FindingsReport) : Json :=
  .obj [("cloudtrail", cloudtrailToJson f.cloudtrail),
        ("s3_logging", s3LoggingToJson f.s3_logging),
        ("cloudwatch_logs", cloudwatchLogsToJson f.cloudwatch_logs),
        ("rds_logging", rdsLoggingToJson f.rds_logging),
        ("iam_logging", iamLoggingToJson f.iam_logging),
        ("timestamp", .str f.timestamp),
        ("total_issues", .num f.total_issues)]

/-- Parse one issue dict back. -/
def issueFromJson : Json → Option Issue
  | .obj [("severity", .str s), ("description", .str d),
          ("pci_reference", .str p), ("recommendation", .str r)] =>
      some ⟨s, d, p, r⟩
  | _ => none

/-- Parse a list of issue dicts back. -/
def issuesFromJsonList : List Json → Option (List Issue)
  | [] => some []
  | j :: js =>
      match issueFromJson j, issuesFromJsonList js with
      | some i, some is => some (i :: is)
      | _, _ => none

/-- Parse a list of strings back. -/
def strListFromJsonList : List Json → Option (List String)
  | [] => some []
  | .str s :: js =>
      match strListFromJsonList js with
      | some ss => some (s :: ss)
      | none => none
  | _ => none

/-- Parse a JSON integer back to a count. -/
def natFromJson : Json → Option ℕ
  | .num n => if 0 ≤ n then some n.toNat else none
  | _ => none

/-- Parse the `cloudtrail` findings dict back. -/
def cloudtrailFromJson : Json → Option CloudtrailFinding
  | .obj [("enabled", .bool e), ("multi_region", .bool m),
          ("log_file_validation", .bool v), ("s3_bucket", sb),
          ("issues", .arr is)] =>
      match sb, issuesFromJsonList is with
      | .null, some l => some ⟨e, m, v, none, l⟩
      | .str s, some l => some ⟨e, m, v, some s, l⟩
      | _, _ => none
  | _ => none

/-- Parse the `s3_logging` findings dict back. -/
def s3LoggingFromJson : Json → Option S3LoggingFinding
  | .obj [("buckets_analyzed", a), ("buckets_with_logging", w),
          ("buckets_without_logging", .arr wo), ("issues", .arr is)] =>
      match natFromJson a, natFromJson w, strListFromJsonList wo,
          issuesFromJsonList is with
      | some a', some w', some wo', some is' => some ⟨a', w', wo', is'⟩
      | _, _, _, _ => none
  | _ => none

/-- Parse the `cloudwatch_logs` findings dict back. -/
def cloudwatchLogsFromJson : Json → Option CloudwatchLogsFinding
  | .obj [("log_groups", a), ("log_groups_with_retention", w),
          ("log_groups_without_retention", .arr wo), ("issues", .arr is)] =>
      match natFromJson a, natFromJson w, strListFromJsonList wo,
          issuesFromJsonList is with
      | some a', some w', some wo', some is' => some ⟨a', w', wo', is'⟩
      | _, _, _, _ => none
  | _ => none

/-- Parse the `rds_logging` findings dict back. -/
def rdsLoggingFromJson : Json → Option RdsLoggingFinding
  | .obj [("instances", a), ("instances_with_logging", w),
          ("instances_without_logging", .arr wo), ("issues", .arr is)] =>
      match natFromJson a, natFromJson w, strListFromJsonList wo,
          issuesFromJsonList is with
      | some a', some w', some wo', some is' => some ⟨a', w', wo', is'⟩
      | _, _, _, _ => none
  | _ => none

/-- Parse the `iam_logging` findings dict back. -/
def iamLoggingFromJson : Json → Option IamLoggingFinding
  | .obj [("credential_reports_enabled", .bool c),
          ("access_analyzer_enabled", .bool a), ("issues", .arr is)] =>
      match issuesFromJsonList is with
      | some l => some ⟨c, a, l⟩
      | none => none
  | _ => none

/-- Parse a findings report back from `findings.json`. -/
def findingsFromJson : Json → Option FindingsReport
  | .obj [("cloudtrail", ct), ("s3_logging", s3), ("cloudwatch_logs", cw),
          ("rds_logging", rds), ("iam_logging", iam), ("timestamp", .str ts),
          ("total_issues", ti)] =>
      match cloudtrailFromJson ct, s3LoggingFromJson s3,
          cloudwatchLogsFromJson cw, rdsLoggingFromJson rds,
          iamLoggingFromJson iam, natFromJson ti with
      | some ct', some s3', some cw', some rds', some iam', some ti' =>
          some ⟨ct', s3', cw', rds', iam', ts, ti'⟩
      | _, _, _, _, _, _ => none
  | _ => none

/-! ## Standalone remediation-script generator
(scripts/generate_remediation_scripts.py)

`RemediationScriptGenerator.__init__` assigns only `self.config` and
`self.templates`; `self.region` and `self.account_id` are never assigned, so
reading them raises `AttributeError`.  Attributes that may be missing are
modelled as `Option`; reading a missing one is an `Except.error`.  Each
`generate_*_script` method returns the path of the file it writes; the
attribute reads happen when the `template.render(...)` keyword arguments are
evaluated, before anything is written. -/

/-- A Python runtime error surfaced by the generator. -/
inductive PyError where
  | attributeError (name : String)
deriving Repr, DecidableEq

/-- The attribute state of a `RemediationScriptGenerator` object. -/
structure RemediationScriptGenerator where
  config_loaded : Bool
  templates_loaded : Bool
  region : Option String
  account_id : Option String
deriving Repr, DecidableEq

/-- Embeds `RemediationScriptGenerator.__init__`: loads `self.config` and
`self.templates`, never assigns `self.region` or `self.account_id`. -/
def remediationScriptGeneratorInit : RemediationScriptGenerator :=
  ⟨true, true, none, none⟩

/-- Reading `self.region`. -/
def getattrRegion (g : RemediationScriptGenerator) : Except PyError String :=
  match g.region with
  | some r => .ok r
  | none => .error (.attributeError "region")

/-- Reading `self.account_id`. -/
def getattrAccountId (g : RemediationScriptGenerator) : Except PyError String :=
  match g.account_id with
  | some a => .ok a
  | none => .error (.attributeError "account_id")

/-- Embeds `generate_cloudtrail_script`: renders with `region=self.region,
account_id=self.account_id` (region read first) and writes
`setup_cloudtrail.sh`. -/
def generate_cloudtrail_script (g : RemediationScriptGenerator)
    (output_dir : String) : Except PyError String := do
  let _ ← getattrRegion g
  let _ ← getattrAccountId g
  pure (output_dir ++ "/setup_cloudtrail.sh")

/-- Embeds `generate_s3_logging_script`: renders with `region=self.region`. -/
def generate_s3_logging_script (g : RemediationScriptGenerator)
    (buckets : List String) (output_dir : String) : Except PyError String := do
  let _ ← getattrRegion g
  pure (output_dir ++ "/setup_s3_logging.sh")

/-- Embeds `generate_cloudwatch_retention_script`: uses no object attributes. -/
def generate_cloudwatch_retention_script (g : RemediationScriptGenerator)
    (log_groups : List String) (output_dir : String) : Except PyError String :=
  pure (output_dir ++ "/setup_cloudwatch_retention.sh")

/-- Embeds `generate_rds_logging_script`: uses no object attributes. -/
def generate_rds_logging_script (g : RemediationScriptGenerator)
    (instances : List String) (output_dir : String) : Except PyError String :=
  pure (output_dir ++ "/setup_rds_logging.sh")

/-- Embeds `generate_iam_monitoring_script`: renders with `region=self.region`. -/
def generate_iam_monitoring_script (g : RemediationScriptGenerator)
    (output_dir : String) : Except PyError String := do
  let _ ← getattrRegion g
  pure (output_dir ++ "/setup_iam_monitoring.sh")

/-- Embeds `generate_monitoring_alerts_script`: renders with `region=self.region`. -/
def generate_monitoring_alerts_script (g : RemediationScriptGenerator)
    (output_dir : String) : Except PyError String := do
  let _ ← getattrRegion g
  pure (output_dir ++ "/setup_monitoring_alerts.sh")

/-- Embeds `generate_cost_optimization_script`: uses only literal values. -/
def generate_cost_optimization_script (g : RemediationScriptGenerator)
    (output_dir : String) : Except PyError String :=
  pure (output_dir ++ "/setup_cost_optimization.sh")

/-- Embeds `generate_master_script`: builds text from `findings` only. -/
def generate_master_script (g : RemediationScriptGenerator)
    (findings : FindingsReport) (output_dir : String) : Except PyError String :=
  pure (output_dir ++ "/run_all_remediation.sh")

/-- Embeds `RemediationScriptGenerator.generate_all_scripts`: conditionally generate
the four per-service scripts, then unconditionally the IAM monitoring,
monitoring alerts, cost optimization and master scripts. -/
def generate_all_scripts (g : RemediationScriptGenerator)
    (findings : FindingsReport) (output_dir : String) :
    Except PyError (List String) := do
  let scripts : List String := []
  let scripts ←
    if findings.cloudtrail.enabled = false then do
      let p ← generate_cloudtrail_script g output_dir
      pure (scripts ++ [p])
    else pure scripts
  let scripts ←
    if findings.s3_logging.buckets_without_logging ≠ [] then do
      let p ← generate_s3_logging_script g
        findings.s3_logging.buckets_without_logging output_dir
      pure (scripts ++ [p])
    else pure scripts
  let scripts ←
    if findings.cloudwatch_logs.log_groups_without_retention ≠ [] then do
      let p ← generate_cloudwatch_retention_script g
        findings.cloudwatch_logs.log_groups_without_retention output_dir
      pure (scripts ++ [p])
    else pure scripts
  let scripts ←
    if findings.rds_logging.instances_without_logging ≠ [] then do
      let p ← generate_rds_logging_script g
        findings.rds_logging.instances_without_logging output_dir
      pure (scripts ++ [p])
    else pure scripts
  let p1 ← generate_iam_monitoring_script g output_dir
  let scripts := scripts ++ [p1]
  let p2 ← generate_monitoring_alerts_script g output_dir
  let scripts := scripts ++ [p2]
  let p3 ← generate_cost_optimization_script g output_dir
  let scripts := scripts ++ [p3]
  let p4 ← generate_master_script g findings output_dir
  pure (scripts ++ [p4])

/-! ## Line predicates used to state the script-generation property -/

/-- A script line that invokes `aws s3api put-bucket-logging`. -/
def isPutBucketLoggingInvocation (l : String) : Bool :=
  "aws s3api put-bucket-logging".toList.isPrefixOf l.toList

/-- A script line passing a bucket name via `--bucket "..."`. -/
def isBucketArgLine (l : String) : Bool :=
  "    --bucket \"".toList.isPrefixOf l.toList

/-- Proposition: `g` is `f` with one extra issue appended to exactly one
service\x27s issue list and every other field unchanged. -/
def AddsOneIssue (f : FindingsReport) (i : Issue) (g : FindingsReport) : Prop :=
  g = { f with cloudtrail := { f.cloudtrail with issues := f.cloudtrail.issues ++ [i] } }
  ∨ g = { f with s3_logging := { f.s3_logging with issues := f.s3_logging.issues ++ [i] } }
  ∨ g = { f with cloudwatch_logs :=
      { f.cloudwatch_logs with issues := f.cloudwatch_logs.issues ++ [i] } }
  ∨ g = { f with rds_logging := { f.rds_logging with issues := f.rds_logging.issues ++ [i] } }
  ∨ g = { f with iam_logging := { f.iam_logging with issues := f.iam_logging.issues ++ [i] } }

/-- A findings report with no issues at all (concrete test input). -/
def emptyFindingsReport : FindingsReport :=
  ⟨⟨false, false, false, none, []⟩, ⟨0, 0, [], []⟩, ⟨0, 0, [], []⟩, ⟨0, 0, [], []⟩,
   ⟨false, false, []⟩, "", 0⟩

/-- A findings report whose issues weigh exactly 28 (fourteen MEDIUM issues);
concrete test input for the scorer. -/
def fourteenMediumReport : FindingsReport :=
  { emptyFindingsReport with
      s3_logging := ⟨0, 0, [], List.replicate 14 ⟨"MEDIUM", "d", "10.2.1", "r"⟩⟩ }


/-! ## Lemmas about the binary64 model and the compliance scorer -/

lemma dyDen_pos (d : Dy) : 0 < dyDen d := by
  unfold dyDen; split <;> positivity

lemma dyNum_mk (m E : ℤ) : dyNum ⟨m, E⟩ = if 0 ≤ E then m * 2 ^ E.toNat else m := rfl

lemma dyDen_mk (m E : ℤ) : dyDen ⟨m, E⟩ = if 0 ≤ E then 1 else 2 ^ (-E).toNat := rfl

lemma roundPosFrac_def (a b : ℤ) : roundPosFrac a b =
    ⟨if 0 ≤ 52 - binadeExpI a b then rheFrac (a * 2 ^ ((52:ℤ) - binadeExpI a b).toNat) b
      else rheFrac a (b * 2 ^ (binadeExpI a b - 52).toNat), binadeExpI a b - 52⟩ := rfl

lemma rheFrac_ge_fdiv (a b : ℤ) : a.fdiv b ≤ rheFrac a b := by
  unfold rheFrac
  dsimp only
  split
  · exact le_refl _
  · split
    · omega
    · split <;> omega

lemma rheFrac_nonneg (a b : ℤ) (ha : 0 ≤ a) (hb : 0 ≤ b) : 0 ≤ rheFrac a b :=
  le_trans (Int.fdiv_nonneg ha hb) (rheFrac_ge_fdiv a b)

lemma binFindI_invariant (a b : ℤ) : ∀ (fuel e : ℕ), b * 2^e ≤ a →
    b * 2^(binFindI a b e fuel) ≤ a := by
  intro fuel
  induction fuel with
  | zero => intro e h; exact h
  | succ n ih =>
    intro e h
    rw [binFindI]
    split
    · exact h
    · exact ih (e+1) (le_of_not_lt (by assumption))

lemma le_fdiv_of_mul_le (a b c : ℤ) (hb : 0 < b) (h : c * b ≤ a) : c ≤ a.fdiv b := by
  have h2 := Int.lt_fdiv_add_one_mul_self a hb
  nlinarith

lemma fdiv_mul_gt (a b : ℤ) (hb : 0 < b) : a - b < a.fdiv b * b := by
  have h2 := Int.lt_fdiv_add_one_mul_self a hb
  nlinarith

lemma roundFrac_ge (a b c : ℤ) (hb : 0 < b) (hc0 : 0 < c) (hc : c ≤ 2^52)
    (h : c * b ≤ a) :
    c * dyDen (roundFrac a b) ≤ dyNum (roundFrac a b) := by
  have hba : b ≤ a := le_trans (by nlinarith) h
  have ha : 0 < a := lt_of_lt_of_le hb hba
  rw [roundFrac, if_neg (by omega), if_neg (by omega)]
  rw [roundPosFrac_def]
  obtain ⟨e', he'⟩ : ∃ e' : ℕ, binFindI a b 0 1100 = e' := ⟨_, rfl⟩
  have hbr : binadeExpI a b = (e' : ℤ) := by
    rw [binadeExpI, if_pos hba, he']
  have hinv : b * 2^e' ≤ a := by
    have := binFindI_invariant a b 1100 0 (by simpa using hba)
    rwa [he'] at this
  rw [hbr, dyNum_mk, dyDen_mk]
  by_cases hle : (e' : ℤ) ≤ 52
  · -- small binade: significand = rheFrac (a * 2^(52 - e')) b
    have hsig : (0:ℤ) ≤ 52 - (e':ℤ) := by omega
    have htn : ((52:ℤ) - (e':ℤ)).toNat = 52 - e' := by omega
    have hm : c * 2^(52 - e') ≤ rheFrac (a * 2^(52 - e')) b := by
      refine le_trans ?_ (rheFrac_ge_fdiv _ _)
      refine le_fdiv_of_mul_le _ _ _ hb ?_
      calc c * 2^(52 - e') * b = c * b * 2^(52 - e') := by ring
        _ ≤ a * 2^(52 - e') := by
            have hp : (0:ℤ) < 2^(52 - e') := by positivity
            nlinarith
    rcases eq_or_lt_of_le hle with heq | hlt
    · -- e' = 52 : E = 0
      have hE : (0:ℤ) ≤ (e':ℤ) - 52 := by omega
      simp only [if_pos hsig, if_pos hE, htn]
      have h0 : 52 - e' = 0 := by omega
      have h0' : ((e':ℤ) - 52).toNat = 0 := by omega
      simp only [h0, h0', pow_zero, mul_one, one_mul] at hm ⊢
      exact hm
    · -- e' < 52 : E < 0
      have hE : ¬ (0:ℤ) ≤ (e':ℤ) - 52 := by omega
      simp only [if_pos hsig, if_neg hE, htn]
      have hneg : (-((e':ℤ) - 52)).toNat = 52 - e' := by omega
      rw [hneg]
      exact hm
  · -- big binade: e' ≥ 53
    push_neg at hle
    have hsig : ¬ (0:ℤ) ≤ 52 - (e':ℤ) := by omega
    have hE : (0:ℤ) ≤ (e':ℤ) - 52 := by omega
    have htn : (((e':ℤ) - 52)).toNat = e' - 52 := by omega
    simp only [if_neg hsig, if_pos hE, htn]
    have ht1 : 1 ≤ e' - 52 := by omega
    have hBpos : (0:ℤ) < b * 2^(e' - 52) := by positivity
    have hsplit : e' = (e' - 52) + 52 := by omega
    have hm : (2:ℤ)^52 ≤ rheFrac a (b * 2^(e' - 52)) := by
      refine le_trans ?_ (rheFrac_ge_fdiv _ _)
      have hgt := fdiv_mul_gt a (b * 2^(e' - 52)) hBpos
      have hpow : (2:ℤ)^e' = 2^(e' - 52) * 2^52 := by
        have he52 : e' - 52 + 52 = e' := by omega
        rw [← pow_add, he52]
      have h1 : b * 2^(e' - 52) * ((2:ℤ)^52 - 1) <
          a.fdiv (b * 2^(e' - 52)) * (b * 2^(e' - 52)) := by
        calc b * 2^(e' - 52) * ((2:ℤ)^52 - 1)
            = b * (2^(e' - 52) * 2^52) - b * 2^(e' - 52) := by ring
          _ = b * 2^e' - b * 2^(e' - 52) := by rw [hpow]
          _ ≤ a - b * 2^(e' - 52) := by omega
          _ < a.fdiv (b * 2^(e' - 52)) * (b * 2^(e' - 52)) := hgt
      nlinarith
    have h2t : (0:ℤ) < 2^(e' - 52) := by positivity
    nlinarith

lemma roundPosFrac_m_nonneg (a b : ℤ) (ha : 0 ≤ a) (hb : 0 ≤ b) :
    0 ≤ (roundPosFrac a b).m := by
  rw [roundPosFrac_def]
  dsimp only
  split
  · exact rheFrac_nonneg _ _ (by positivity) hb
  · exact rheFrac_nonneg _ _ ha (by positivity)

lemma roundFrac_m_nonpos (a b : ℤ) (hb : 0 < b) (ha : a ≤ 0) :
    (roundFrac a b).m ≤ 0 := by
  rw [roundFrac]
  split_ifs with h1 h2
  · simp
  · dsimp only
    have := roundPosFrac_m_nonneg (-a) b (by omega) (by omega)
    omega
  · omega

lemma scoreOfWeight_ge50 (w : ℕ) (h : 50 ≤ w) : scoreOfWeight w = 0 := by
  rw [scoreOfWeight]
  have hx : (1:ℤ) * dyDen (roundFrac (w:ℤ) 50) ≤ dyNum (roundFrac (w:ℤ) 50) := by
    refine roundFrac_ge _ _ _ (by norm_num) one_pos (by norm_num) ?_
    simp only [one_mul]
    exact_mod_cast h
  set x := roundFrac (w:ℤ) 50 with hxdef
  have hy : (100:ℤ) * dyDen (roundFrac (dyNum x * 100) (dyDen x)) ≤
      dyNum (roundFrac (dyNum x * 100) (dyDen x)) := by
    refine roundFrac_ge _ _ _ (dyDen_pos x) (by norm_num) (by norm_num) ?_
    nlinarith [dyDen_pos x]
  set y := roundFrac (dyNum x * 100) (dyDen x) with hydef
  have hs : (roundFrac (100 * dyDen y - dyNum y) (dyDen y)).m ≤ 0 :=
    roundFrac_m_nonpos _ _ (dyDen_pos y) (by omega)
  simp only [if_pos hs]



lemma scoreOfWeight_lt50 (w : ℕ) (h : w < 50) :
    scoreOfWeight w = if w = 28 then 43 else 100 - 2 * (w : ℤ) := by
  interval_cases w <;> decide

lemma scoreOfWeight_eq (w : ℕ) :
    scoreOfWeight w = if w = 28 then 43 else max 0 (100 - 2 * (w : ℤ)) := by
  rcases lt_or_ge w 50 with hlt | hge
  · rw [scoreOfWeight_lt50 w hlt]
    by_cases h28 : w = 28
    · simp [h28]
    · rw [if_neg h28, if_neg h28]
      have : (0:ℤ) ≤ 100 - 2 * (w:ℤ) := by
        have : (w:ℤ) < 50 := by exact_mod_cast hlt
        omega
      omega
  · rw [scoreOfWeight_ge50 w hge]
    have hne : w ≠ 28 := by omega
    rw [if_neg hne]
    have : (100:ℤ) - 2 * (w:ℤ) ≤ 0 := by
      have : (50:ℤ) ≤ (w:ℤ) := by exact_mod_cast hge
      omega
    omega

lemma ws_eq_sum (l : List Issue) (n : ℕ) :
    l.foldl (fun acc i => acc + severityWeight i.severity) n
      = n + (l.map (fun i => severityWeight i.severity)).sum := by
  induction l generalizing n with
  | nil => simp
  | cons h t ih =>
    simp only [List.foldl_cons, List.map_cons, List.sum_cons, ih]
    omega

lemma weightedIssues_addOne (f : FindingsReport) (i : Issue) (g : FindingsReport)
    (h : AddsOneIssue f i g) :
    weightedIssues g = weightedIssues f + severityWeight i.severity := by
  rcases h with h|h|h|h|h <;> subst h <;>
    simp only [weightedIssues, allIssues, ws_eq_sum, List.map_append, List.sum_append,
      List.map_cons, List.map_nil, List.sum_cons, List.sum_nil] <;>
    omega

lemma scoreOfWeight_mono (w1 w2 : ℕ) (h : w1 ≤ w2) :
    scoreOfWeight w2 ≤ scoreOfWeight w1 := by
  rw [scoreOfWeight_eq, scoreOfWeight_eq]
  split_ifs <;> omega

/-! ## Lemmas for the script-line, compliance-table, JSON and analyzer properties -/

lemma not_prefix_of_take_ne (pat s1 rest : List Char) (k : ℕ)
    (hk1 : k ≤ pat.length) (hk2 : k ≤ s1.length)
    (hne : pat.take k ≠ s1.take k) : ¬ pat <+: (s1 ++ rest) := by
  intro h
  apply hne
  rw [List.prefix_iff_eq_take] at h
  conv_lhs => rw [h]
  rw [List.take_take, min_eq_left hk1, List.take_append_of_le_length hk2]

lemma toList_three (p q : String) (b : String) :
    (p ++ b ++ q).toList = p.toList ++ (b.toList ++ q.toList) := by
  simp [String.toList, String.data_append, List.append_assoc]

lemma inv_line2_false (b : String) :
    isPutBucketLoggingInvocation ("    --bucket \"" ++ b ++ "\" \\") = false := by
  unfold isPutBucketLoggingInvocation
  rw [Bool.eq_false_iff]
  intro h
  rw [List.isPrefixOf_iff_prefix] at h
  rw [toList_three] at h
  exact not_prefix_of_take_ne _ _ _ 1 (by decide) (by decide) (by decide) h

lemma inv_line3_false (b : String) :
    isPutBucketLoggingInvocation
      ("    --bucket-logging-status \x27\x7b\"LoggingEnabled\": \x7b\"TargetBucket\": \"your-log-bucket-name\", \"TargetPrefix\": \""
        ++ b ++ "/\"\x7d\x7d\x27") = false := by
  unfold isPutBucketLoggingInvocation
  rw [Bool.eq_false_iff]
  intro h
  rw [List.isPrefixOf_iff_prefix] at h
  rw [toList_three] at h
  exact not_prefix_of_take_ne _ _ _ 1 (by decide) (by decide) (by decide) h

lemma arg_line2_true (b : String) :
    isBucketArgLine ("    --bucket \"" ++ b ++ "\" \\") = true := by
  unfold isBucketArgLine
  rw [List.isPrefixOf_iff_prefix, toList_three]
  exact List.prefix_append _ _

lemma arg_line3_false (b : String) :
    isBucketArgLine
      ("    --bucket-logging-status \x27\x7b\"LoggingEnabled\": \x7b\"TargetBucket\": \"your-log-bucket-name\", \"TargetPrefix\": \""
        ++ b ++ "/\"\x7d\x7d\x27") = false := by
  unfold isBucketArgLine
  rw [Bool.eq_false_iff]
  intro h
  rw [List.isPrefixOf_iff_prefix] at h
  rw [toList_three] at h
  exact not_prefix_of_take_ne _ _ _ 14 (by decide) (by decide) (by decide) h



lemma s3_filter_inv (buckets : List String) :
    (buckets.flatMap s3BucketBlockLines).filter isPutBucketLoggingInvocation
      = buckets.map (fun _ => "aws s3api put-bucket-logging \\") := by
  induction buckets with
  | nil => rfl
  | cons b bs ih =>
    rw [List.flatMap_cons, List.filter_append, ih]
    have h1 : isPutBucketLoggingInvocation "aws s3api put-bucket-logging \\" = true := by
      decide
    have h4 : isPutBucketLoggingInvocation "" = false := by decide
    simp only [s3BucketBlockLines, List.filter_cons, List.filter_nil, h1,
      inv_line2_false b, inv_line3_false b, h4]
    rfl

lemma s3_filter_arg (buckets : List String) :
    (buckets.flatMap s3BucketBlockLines).filter isBucketArgLine
      = buckets.map (fun b => "    --bucket \"" ++ b ++ "\" \\") := by
  induction buckets with
  | nil => rfl
  | cons b bs ih =>
    rw [List.flatMap_cons, List.filter_append, ih]
    have h1 : isBucketArgLine "aws s3api put-bucket-logging \\" = false := by decide
    have h4 : isBucketArgLine "" = false := by decide
    simp only [s3BucketBlockLines, List.filter_cons, List.filter_nil, h1,
      arg_line2_true b, arg_line3_false b, h4]
    rfl

/-- C7: for every list of N unlogged S3 bucket names, the generated S3
remediation script contains exactly N `aws s3api put-bucket-logging`
invocations, and its `--bucket` argument lines carry the bucket names one per
bucket, in the same order as the input list. -/
theorem c7_s3_script_invocations (buckets : List String) :
    ((s3LoggingScriptLines buckets).filter isPutBucketLoggingInvocation).length
        = buckets.length
    ∧ (s3LoggingScriptLines buckets).filter isBucketArgLine
        = buckets.map (fun b => "    --bucket \"" ++ b ++ "\" \\") := by
  unfold s3LoggingScriptLines
  constructor
  · rw [List.filter_append, List.filter_append, s3_filter_inv]
    have h1 : List.filter isPutBucketLoggingInvocation
        ["#!/bin/bash", "# Enable S3 access logging for buckets"] = [] := by decide
    have h2 : List.filter isPutBucketLoggingInvocation
        ["echo \"S3 access logging enabled for all buckets\""] = [] := by decide
    rw [h1, h2]
    simp
  · rw [List.filter_append, List.filter_append, s3_filter_arg]
    have h1 : List.filter isBucketArgLine
        ["#!/bin/bash", "# Enable S3 access logging for buckets"] = [] := by decide
    have h2 : List.filter isBucketArgLine
        ["echo \"S3 access logging enabled for all buckets\""] = [] := by decide
    rw [h1, h2]
    simp

lemma issueFromJson_toJson (i : Issue) : issueFromJson (issueToJson i) = some i := rfl

lemma issuesFromJsonList_map (l : List Issue) :
    issuesFromJsonList (l.map issueToJson) = some l := by
  induction l with
  | nil => rfl
  | cons i is ih =>
    simp only [List.map_cons, issuesFromJsonList, issueFromJson_toJson, ih]

lemma strListFromJsonList_map (l : List String) :
    strListFromJsonList (l.map Json.str) = some l := by
  induction l with
  | nil => rfl
  | cons s ss ih =>
    simp only [List.map_cons, strListFromJsonList, ih]

lemma natFromJson_num (n : ℕ) : natFromJson (.num n) = some n := by
  simp [natFromJson]

lemma cloudtrailFromJson_toJson (c : CloudtrailFinding) :
    cloudtrailFromJson (cloudtrailToJson c) = some c := by
  obtain ⟨e, m, v, sb, is⟩ := c
  cases sb <;>
    simp only [cloudtrailToJson, optStrToJson, cloudtrailFromJson,
      issuesFromJsonList_map]

lemma s3LoggingFromJson_toJson (s : S3LoggingFinding) :
    s3LoggingFromJson (s3LoggingToJson s) = some s := by
  obtain ⟨a, w, wo, is⟩ := s
  simp only [s3LoggingToJson, s3LoggingFromJson, natFromJson_num,
    strListFromJsonList_map, issuesFromJsonList_map]

lemma cloudwatchLogsFromJson_toJson (c : CloudwatchLogsFinding) :
    cloudwatchLogsFromJson (cloudwatchLogsToJson c) = some c := by
  obtain ⟨a, w, wo, is⟩ := c
  simp only [cloudwatchLogsToJson, cloudwatchLogsFromJson, natFromJson_num,
    strListFromJsonList_map, issuesFromJsonList_map]

lemma rdsLoggingFromJson_toJson (r : RdsLoggingFinding) :
    rdsLoggingFromJson (rdsLoggingToJson r) = some r := by
  obtain ⟨a, w, wo, is⟩ := r
  simp only [rdsLoggingToJson, rdsLoggingFromJson, natFromJson_num,
    strListFromJsonList_map, issuesFromJsonList_map]

lemma iamLoggingFromJson_toJson (i : IamLoggingFinding) :
    iamLoggingFromJson (iamLoggingToJson i) = some i := by
  obtain ⟨c, a, is⟩ := i
  simp only [iamLoggingToJson, iamLoggingFromJson, issuesFromJsonList_map]

lemma findingsFromJson_toJson (f : FindingsReport) :
    findingsFromJson (findingsToJson f) = some f := by
  obtain ⟨ct, s3, cw, rds, iam, ts, ti⟩ := f
  simp only [findingsToJson, findingsFromJson, cloudtrailFromJson_toJson,
    s3LoggingFromJson_toJson, cloudwatchLogsFromJson_toJson,
    rdsLoggingFromJson_toJson, iamLoggingFromJson_toJson, natFromJson_num]

/-- C8: serializing a FindingsReport to JSON and parsing it back yields a
record on which the recommendation deriver produces an identical
recommendation list and the compliance scorer an identical score. -/
theorem c8_json_round_trip (f : FindingsReport) :
    findingsFromJson (findingsToJson f) = some f
    ∧ ∀ g : FindingsReport, findingsFromJson (findingsToJson f) = some g →
        generate_recommendations g = generate_recommendations f
        ∧ calculate_compliance_score g = calculate_compliance_score f := by
  refine ⟨findingsFromJson_toJson f, fun g hg => ?_⟩
  rw [findingsFromJson_toJson f, Option.some_inj] at hg
  subst hg
  exact ⟨rfl, rfl⟩

/-- Witness for C8 at the sample findings report. -/
theorem c8_json_round_trip_witness :
    findingsFromJson (findingsToJson (sampleFindings "2024-01-01T00:00:00"))
        = some (sampleFindings "2024-01-01T00:00:00")
    ∧ generate_recommendations (sampleFindings "2024-01-01T00:00:00")
        = generate_recommendations (sampleFindings "2024-01-01T00:00:00")
    ∧ calculate_compliance_score (sampleFindings "2024-01-01T00:00:00")
        = calculate_compliance_score (sampleFindings "2024-01-01T00:00:00") :=
  ⟨(c8_json_round_trip (sampleFindings "2024-01-01T00:00:00")).1,
   (c8_json_round_trip (sampleFindings "2024-01-01T00:00:00")).2
     (sampleFindings "2024-01-01T00:00:00")
     (c8_json_round_trip (sampleFindings "2024-01-01T00:00:00")).1⟩

lemma s3_foldl_issues (bs : List S3Bucket) (acc : S3LoggingFinding) :
    (bs.foldl
      (fun acc b =>
        let acc := { acc with buckets_analyzed := acc.buckets_analyzed + 1 }
        if b.hasLoggingEnabled then
          { acc with buckets_with_logging := acc.buckets_with_logging + 1 }
        else
          { acc with
              buckets_without_logging := acc.buckets_without_logging ++ [b.name],
              issues := acc.issues ++
                [⟨"MEDIUM",
                  "S3 bucket " ++ b.name ++ " does not have access logging enabled",
                  "10.2.1", "Enable access logging for bucket " ++ b.name⟩] })
      acc).issues
    = acc.issues ++ (bs.filter (fun b => !b.hasLoggingEnabled)).map
        (fun b => ⟨"MEDIUM",
          "S3 bucket " ++ b.name ++ " does not have access logging enabled",
          "10.2.1", "Enable access logging for bucket " ++ b.name⟩) := by
  induction bs generalizing acc with
  | nil => simp
  | cons b bs ih =>
    simp only [List.foldl_cons, List.filter_cons]
    by_cases hb : b.hasLoggingEnabled
    · rw [if_pos hb]
      simp [hb, ih]
    · rw [if_neg hb]
      simp only [Bool.not_eq_true] at hb
      simp [hb, ih]

lemma probe_s3_issue (bs : List S3Bucket) (b : S3Bucket) (hmem : b ∈ bs)
    (hno : b.hasLoggingEnabled = false) :
    (⟨"MEDIUM", "S3 bucket " ++ b.name ++ " does not have access logging enabled",
      "10.2.1", "Enable access logging for bucket " ++ b.name⟩ : Issue)
      ∈ (analyze_s3_logging (.ok bs)).issues := by
  rw [analyze_s3_logging, s3_foldl_issues]
  simp only [List.nil_append]
  exact List.mem_map_of_mem _ (List.mem_filter.mpr ⟨hmem, by simp [hno]⟩)



lemma cw_foldl_issues (gs : List LogGroup) (acc : CloudwatchLogsFinding) :
    (gs.foldl
      (fun acc g =>
        let acc := { acc with log_groups := acc.log_groups + 1 }
        match g.retentionInDays with
        | some _ =>
            { acc with log_groups_with_retention := acc.log_groups_with_retention + 1 }
        | none =>
            { acc with
                log_groups_without_retention :=
                  acc.log_groups_without_retention ++ [g.logGroupName],
                issues := acc.issues ++
                  [⟨"MEDIUM",
                    "CloudWatch Log Group " ++ g.logGroupName ++ " has no retention policy",
                    "10.5.1.2",
                    "Set retention policy for log group " ++ g.logGroupName⟩] })
      acc).issues
    = acc.issues ++ (gs.filter (fun g => g.retentionInDays.isNone)).map
        (fun g => ⟨"MEDIUM",
          "CloudWatch Log Group " ++ g.logGroupName ++ " has no retention policy",
          "10.5.1.2", "Set retention policy for log group " ++ g.logGroupName⟩) := by
  induction gs generalizing acc with
  | nil => simp
  | cons g gs ih =>
    simp only [List.foldl_cons, List.filter_cons]
    cases hg : g.retentionInDays with
    | some d => simp [hg, ih]
    | none => simp [hg, ih]

lemma rds_foldl_issues (is : List DBInstance) (acc : RdsLoggingFinding) :
    (is.foldl
      (fun acc i =>
        let acc := { acc with instances := acc.instances + 1 }
        if i.enable_cloudwatch_logs_exports ≠ [] then
          { acc with instances_with_logging := acc.instances_with_logging + 1 }
        else
          { acc with
              instances_without_logging :=
                acc.instances_without_logging ++ [i.db_instance_identifier],
              issues := acc.issues ++
                [⟨"MEDIUM",
                  "RDS instance " ++ i.db_instance_identifier
                    ++ " does not have CloudWatch logging enabled",
                  "10.2.1",
                  "Enable CloudWatch logging for RDS instance "
                    ++ i.db_instance_identifier⟩] })
      acc).issues
    = acc.issues ++ (is.filter (fun i => i.enable_cloudwatch_logs_exports.isEmpty)).map
        (fun i => ⟨"MEDIUM",
          "RDS instance " ++ i.db_instance_identifier
            ++ " does not have CloudWatch logging enabled",
          "10.2.1",
          "Enable CloudWatch logging for RDS instance " ++ i.db_instance_identifier⟩) := by
  induction is generalizing acc with
  | nil => simp
  | cons i is ih =>
    rw [List.foldl_cons, ih, List.filter_cons]
    by_cases hi : i.enable_cloudwatch_logs_exports = []
    · simp [hi]
    · simp [hi, List.isEmpty_iff]

lemma probe_cw_issue (gs : List LogGroup) (g : LogGroup) (hmem : g ∈ gs)
    (hno : g.retentionInDays = none) :
    (⟨"MEDIUM", "CloudWatch Log Group " ++ g.logGroupName ++ " has no retention policy",
      "10.5.1.2", "Set retention policy for log group " ++ g.logGroupName⟩ : Issue)
      ∈ (analyze_cloudwatch_logs (.ok gs)).issues := by
  rw [analyze_cloudwatch_logs, cw_foldl_issues]
  simp only [List.nil_append]
  exact List.mem_map_of_mem _ (List.mem_filter.mpr ⟨hmem, by simp [hno]⟩)

lemma probe_rds_issue (is : List DBInstance) (i : DBInstance) (hmem : i ∈ is)
    (hno : i.enable_cloudwatch_logs_exports = []) :
    (⟨"MEDIUM",
      "RDS instance " ++ i.db_instance_identifier
        ++ " does not have CloudWatch logging enabled",
      "10.2.1",
      "Enable CloudWatch logging for RDS instance " ++ i.db_instance_identifier⟩ : Issue)
      ∈ (analyze_rds_logging (.ok is)).issues := by
  rw [analyze_rds_logging, rds_foldl_issues]
  simp only [List.nil_append]
  exact List.mem_map_of_mem _ (List.mem_filter.mpr ⟨hmem, by simp [hno]⟩)


/-- C9: the normalizer maps each disabled/absent feature to the fixed
severity / PCI-reference table entry: no CloudTrail trail gives
HIGH / "10.2.1-10.2.7"; an S3 bucket without access logging gives
MEDIUM / "10.2.1"; a CloudWatch log group without retention gives
MEDIUM / "10.5.1.2"; an RDS instance without log exports gives
MEDIUM / "10.2.1". -/
theorem c9_fixed_severity_table :
    ((analyze_cloudtrail (.ok [])).issues
      = [⟨"HIGH", "No CloudTrail trails found", "10.2.1-10.2.7",
          "Enable CloudTrail for API activity logging"⟩])
    ∧ (∀ (bs : List S3Bucket), ∀ b ∈ bs, b.hasLoggingEnabled = false →
        (⟨"MEDIUM", "S3 bucket " ++ b.name ++ " does not have access logging enabled",
          "10.2.1", "Enable access logging for bucket " ++ b.name⟩ : Issue)
          ∈ (analyze_s3_logging (.ok bs)).issues)
    ∧ (∀ (gs : List LogGroup), ∀ g ∈ gs, g.retentionInDays = none →
        (⟨"MEDIUM", "CloudWatch Log Group " ++ g.logGroupName ++ " has no retention policy",
          "10.5.1.2", "Set retention policy for log group " ++ g.logGroupName⟩ : Issue)
          ∈ (analyze_cloudwatch_logs (.ok gs)).issues)
    ∧ (∀ (is : List DBInstance), ∀ i ∈ is, i.enable_cloudwatch_logs_exports = [] →
        (⟨"MEDIUM",
          "RDS instance " ++ i.db_instance_identifier
            ++ " does not have CloudWatch logging enabled",
          "10.2.1",
          "Enable CloudWatch logging for RDS instance "
            ++ i.db_instance_identifier⟩ : Issue)
          ∈ (analyze_rds_logging (.ok is)).issues) :=
  ⟨rfl,
   fun bs b hmem hno => probe_s3_issue bs b hmem hno,
   fun gs g hmem hno => probe_cw_issue gs g hmem hno,
   fun is i hmem hno => probe_rds_issue is i hmem hno⟩

/-- Witness for C9 at concrete one-element probe payloads. -/
theorem c9_fixed_severity_table_witness :
    (⟨"MEDIUM", "S3 bucket " ++ "bucket1" ++ " does not have access logging enabled",
      "10.2.1", "Enable access logging for bucket " ++ "bucket1"⟩ : Issue)
      ∈ (analyze_s3_logging (.ok [⟨"bucket1", false⟩])).issues
    ∧ (⟨"MEDIUM", "CloudWatch Log Group " ++ "/aws/lambda/app1" ++ " has no retention policy",
        "10.5.1.2", "Set retention policy for log group " ++ "/aws/lambda/app1"⟩ : Issue)
      ∈ (analyze_cloudwatch_logs (.ok [⟨"/aws/lambda/app1", none⟩])).issues :=
  ⟨c9_fixed_severity_table.2.1 [⟨"bucket1", false⟩] ⟨"bucket1", false⟩
      (List.mem_singleton.mpr rfl) rfl,
   c9_fixed_severity_table.2.2.1 [⟨"/aws/lambda/app1", none⟩] ⟨"/aws/lambda/app1", none⟩
      (List.mem_singleton.mpr rfl) rfl⟩

/-- C6 (counterexample): when the IAM credential-report probe raises, the IAM
analyzer emits a MEDIUM issue with the fixed text "IAM credential reports
not enabled" - not a single HIGH issue embedding the error text as the claim
states for every service analyzer. -/
theorem c6_counterexample_iam_not_high :
    (analyze_iam_logging (.error "An error occurred (AccessDenied) when calling the GenerateCredentialReport operation")
        (.ok ["analyzer-1"])).issues
      = [⟨"MEDIUM", "IAM credential reports not enabled", "10.2.1",
          "Enable IAM credential reports for access monitoring"⟩]
    ∧ ∀ i ∈ (analyze_iam_logging (.error "An error occurred (AccessDenied) when calling the GenerateCredentialReport operation")
        (.ok ["analyzer-1"])).issues, i.severity ≠ "HIGH" :=
  ⟨rfl, by decide⟩

/-- C6 (amended): the CloudTrail, S3, CloudWatch Logs and RDS analyzers turn
a probe exception into exactly one synthetic HIGH issue embedding the error
text and return normally; the IAM analyzer also never propagates, but its
two probes are caught separately, each failure yielding one MEDIUM issue
with fixed text; run_analysis always assembles all five service findings, so
a failure in one service never stops the others. No retries: one failed call
yields exactly one issue. -/
theorem c6_probe_errors_isolated :
    (∀ e : String, analyze_cloudtrail (.error e)
      = ⟨false, false, false, none,
         [⟨"HIGH", "Error analyzing CloudTrail: " ++ e, "10.2.1-10.2.7",
           "Check CloudTrail permissions and configuration"⟩]⟩)
    ∧ (∀ e : String, analyze_s3_logging (.error e)
      = ⟨0, 0, [],
         [⟨"HIGH", "Error analyzing S3 logging: " ++ e, "10.2.1",
           "Check S3 permissions and configuration"⟩]⟩)
    ∧ (∀ e : String, analyze_cloudwatch_logs (.error e)
      = ⟨0, 0, [],
         [⟨"HIGH", "Error analyzing CloudWatch Logs: " ++ e, "10.2.1",
           "Check CloudWatch Logs permissions and configuration"⟩]⟩)
    ∧ (∀ e : String, analyze_rds_logging (.error e)
      = ⟨0, 0, [],
         [⟨"HIGH", "Error analyzing RDS logging: " ++ e, "10.2.1",
           "Check RDS permissions and configuration"⟩]⟩)
    ∧ (∀ e1 e2 : String, (analyze_iam_logging (.error e1) (.error e2)).issues
      = [⟨"MEDIUM", "IAM credential reports not enabled", "10.2.1",
          "Enable IAM credential reports for access monitoring"⟩,
         ⟨"MEDIUM", "IAM Access Analyzer not available or enabled", "10.2.1",
          "Enable IAM Access Analyzer for policy analysis"⟩])
    ∧ (∀ ctP s3P cwP rdsP icP iaP ts,
        (run_analysis ctP s3P cwP rdsP icP iaP ts).1
          = ⟨analyze_cloudtrail ctP, analyze_s3_logging s3P, analyze_cloudwatch_logs cwP,
             analyze_rds_logging rdsP, analyze_iam_logging icP iaP, ts,
             (analyze_cloudtrail ctP).issues.length
               + (analyze_s3_logging s3P).issues.length
               + (analyze_cloudwatch_logs cwP).issues.length
               + (analyze_rds_logging rdsP).issues.length
               + (analyze_iam_logging icP iaP).issues.length⟩) :=
  ⟨fun _ => rfl, fun _ => rfl, fun _ => rfl, fun _ => rfl, fun _ _ => rfl,
   fun _ _ _ _ _ _ _ => rfl⟩

/-- C10: for every findings input and output directory,
`generate_all_scripts` on a freshly constructed generator fails with
AttributeError on `self.region` (never initialized by `__init__`), because
the unconditionally executed IAM monitoring script (and any conditionally
reached CloudTrail/S3 script) dereferences it; the standalone
script-generation CLI can never succeed. -/
theorem c10_generate_all_scripts_always_fails (f : FindingsReport) (outDir : String) :
    generate_all_scripts remediationScriptGeneratorInit f outDir
      = .error (.attributeError "region") := by
  unfold generate_all_scripts
  split_ifs <;> rfl

lemma mem_nonCompliantFold (l : List Issue) (acc : List String) (req : String) :
    (req ∈ l.foldl
        (fun acc i =>
          if i.pci_reference ≠ "" ∧ i.pci_reference ∉ acc then acc ++ [i.pci_reference]
          else acc)
        acc)
      ↔ req ∈ acc ∨ (req ≠ "" ∧ ∃ i ∈ l, i.pci_reference = req) := by
  induction l generalizing acc with
  | nil => simp
  | cons hd tl ih =>
    simp only [List.foldl_cons]
    by_cases hcond : hd.pci_reference ≠ "" ∧ hd.pci_reference ∉ acc
    · rw [if_pos hcond, ih]
      simp only [List.mem_append, List.mem_cons, List.not_mem_nil, or_false]
      constructor
      · rintro (⟨h | h⟩ | ⟨hne, i, hi, hr⟩)
        · exact Or.inl h
        · exact Or.inr ⟨h ▸ hcond.1, hd, Or.inl rfl, h.symm⟩
        · exact Or.inr ⟨hne, i, Or.inr hi, hr⟩
      · rintro (h | ⟨hne, i, (rfl | hi), hr⟩)
        · exact Or.inl (Or.inl h)
        · exact Or.inl (Or.inr hr.symm)
        · exact Or.inr ⟨hne, i, hi, hr⟩
    · rw [if_neg hcond, ih]
      push_neg at hcond
      simp only [List.mem_cons]
      constructor
      · rintro (h | ⟨hne, i, hi, hr⟩)
        · exact Or.inl h
        · exact Or.inr ⟨hne, i, Or.inr hi, hr⟩
      · rintro (h | ⟨hne, i, (rfl | hi), hr⟩)
        · exact Or.inl h
        · subst hr
          exact Or.inl (hcond (fun hh => hne hh))
        · exact Or.inr ⟨hne, i, hi, hr⟩

/-- C2 (counterexample): on the report with fourteen MEDIUM issues the
weighted sum is 28 and the scorer returns 43, while the claimed formula
`int(max(0, 100 - (W / 50) * 100))`, read in exact arithmetic, gives 44:
the float evaluation loses 1 at W = 28. -/
theorem c2_score_formula_counterexample :
    weightedIssues fourteenMediumReport = 28
    ∧ calculate_compliance_score fourteenMediumReport = 43
    ∧ ⌊max 0 (100 - ((28:ℚ) / 50) * 100)⌋ = 44 :=
  ⟨by decide, by decide, by norm_num⟩

/-- C2 (amended): the scorer returns `int(max(0, 100 - (W / 50) * 100))`
evaluated in binary64 floating point, which coincides with the exact value
`max 0 (100 - 2 * W)` at every weighted sum W except W = 28, where it
returns 43 instead of 44. -/
theorem c2_score_formula (f : FindingsReport) :
    calculate_compliance_score f =
      if weightedIssues f = 28 then 43
      else max 0 (100 - 2 * (weightedIssues f : ℤ)) :=
  scoreOfWeight_eq (weightedIssues f)

/-- C3: the compliance score lies in [0, 100]; appending one issue to any
service never increases it; a report whose every service has an empty issue
list scores exactly 100. -/
theorem c3_score_bounded_monotone (f : FindingsReport) :
    (0 ≤ calculate_compliance_score f ∧ calculate_compliance_score f ≤ 100)
    ∧ (∀ (i : Issue) (g : FindingsReport), AddsOneIssue f i g →
        calculate_compliance_score g ≤ calculate_compliance_score f)
    ∧ (allIssues f = [] → calculate_compliance_score f = 100) := by
  refine ⟨?_, ?_, ?_⟩
  · rw [calculate_compliance_score, scoreOfWeight_eq]
    split_ifs <;> omega
  · intro i g hadd
    rw [calculate_compliance_score, calculate_compliance_score]
    apply scoreOfWeight_mono
    have := weightedIssues_addOne f i g hadd
    omega
  · intro h
    rw [calculate_compliance_score, weightedIssues, h]
    decide

/-- Witness for C3 at a concrete input: the empty report scores 100, and
appending one HIGH issue to its CloudTrail findings does not increase the
score. -/
theorem c3_score_bounded_monotone_witness :
    calculate_compliance_score emptyFindingsReport = 100
    ∧ calculate_compliance_score
        { emptyFindingsReport with cloudtrail :=
            { emptyFindingsReport.cloudtrail with issues :=
                emptyFindingsReport.cloudtrail.issues ++ [⟨"HIGH", "d", "10.2.1", "r"⟩] } }
        ≤ calculate_compliance_score emptyFindingsReport :=
  ⟨(c3_score_bounded_monotone emptyFindingsReport).2.2 rfl,
   (c3_score_bounded_monotone emptyFindingsReport).2.1 ⟨"HIGH", "d", "10.2.1", "r"⟩ _
     (Or.inl rfl)⟩

/-- C1 (counterexample): on the sample findings the five derived
recommendations have categories [CloudTrail, CloudTrail, S3, CloudWatch,
RDS]; no recommendation has category "IAM", contradicting the claimed
category set \x7bCloudTrail, S3, CloudWatch, RDS, IAM\x7d. -/
theorem c1_counterexample_no_iam_recommendation :
    (generate_recommendations (sampleFindings "2024-01-01T00:00:00")).map
        (fun r => r.category)
      = ["CloudTrail", "CloudTrail", "S3", "CloudWatch", "RDS"]
    ∧ ∀ r ∈ generate_recommendations (sampleFindings "2024-01-01T00:00:00"),
        r.category ≠ "IAM" :=
  ⟨rfl, by decide⟩

/-- C1 (amended): the sample report carries the hardcoded total_issues = 12
while its issue lists hold 13 issues; the pipeline derives exactly 5
recommendations, in categories [CloudTrail, CloudTrail, S3, CloudWatch,
RDS] (two CloudTrail entries, none IAM); and the compliance table marks
exactly the clauses "10.2.1-10.2.7", "10.2.1" and "10.5.1.2" Non-Compliant
and every other clause Compliant. -/
theorem c1_sample_pipeline (ts : String) :
    (sampleFindings ts).total_issues = 12
    ∧ (allIssues (sampleFindings ts)).length = 13
    ∧ (generate_recommendations (sampleFindings ts)).length = 5
    ∧ (generate_recommendations (sampleFindings ts)).map (fun r => r.category)
        = ["CloudTrail", "CloudTrail", "S3", "CloudWatch", "RDS"]
    ∧ ∀ req ∈ pci_requirements.map Prod.fst,
        (complianceStatus (sampleFindings ts) req = "✗ Non-Compliant" ↔
          req ∈ ["10.2.1-10.2.7", "10.2.1", "10.5.1.2"]) := by
  refine ⟨rfl, rfl, rfl, rfl, ?_⟩
  intro req hreq
  have hall : complianceStatus (sampleFindings ts) req
      = complianceStatus (sampleFindings "") req := rfl
  rw [hall]
  fin_cases hreq <;> decide

/-- Witness for C1 at a concrete timestamp and concrete clauses. -/
theorem c1_sample_pipeline_witness :
    complianceStatus (sampleFindings "2024-01-01T00:00:00") "10.5.1.2" = "✗ Non-Compliant"
    ∧ complianceStatus (sampleFindings "2024-01-01T00:00:00") "10.5.2" = "✓ Compliant" := by
  have h1 := (c1_sample_pipeline "2024-01-01T00:00:00").2.2.2.2 "10.5.1.2" (by decide)
  have h2 := (c1_sample_pipeline "2024-01-01T00:00:00").2.2.2.2 "10.5.2" (by decide)
  refine ⟨h1.mpr (by decide), ?_⟩
  have := h2.not.mpr (by decide)
  revert this
  unfold complianceStatus
  split <;> simp

/-- C4: a clause of the static 10-entry PCI table is marked Non-Compliant in
the report (and listed by get_non_compliant_requirements) iff the clause id
appears verbatim (exact string equality) as the pci_reference of some issue;
in particular a range id such as "10.2.1-10.2.7" is matched only by issues
carrying that exact range string, never by a sub-clause tag. -/
theorem c4_verbatim_clause_matching (f : FindingsReport) (req : String)
    (hreq : req ∈ pci_requirements.map Prod.fst) :
    (complianceStatus f req = "✗ Non-Compliant" ↔ ∃ i ∈ allIssues f, i.pci_reference = req)
    ∧ (req ∈ get_non_compliant_requirements f ↔ ∃ i ∈ allIssues f, i.pci_reference = req) := by
  have hne : req ≠ "" := by
    simp only [pci_requirements, List.map_cons, List.map_nil, List.mem_cons,
      List.not_mem_nil, or_false] at hreq
    rcases hreq with rfl|rfl|rfl|rfl|rfl|rfl|rfl|rfl|rfl|rfl <;> decide
  constructor
  · unfold complianceStatus
    by_cases h : req ∈ (allIssues f).map (fun i => i.pci_reference)
    · rw [if_pos h]
      simp only [List.mem_map] at h
      simp [h]
    · rw [if_neg h]
      simp only [List.mem_map] at h
      constructor
      · intro hc
        exact absurd hc (by decide)
      · intro hex
        exact absurd hex h
  · unfold get_non_compliant_requirements
    rw [mem_nonCompliantFold]
    simp [hne]

/-- Witness for C4 at the sample findings: "10.5.2" is not marked
Non-Compliant (no issue carries it verbatim) while "10.2.1" is listed. -/
theorem c4_verbatim_clause_matching_witness :
    ("10.2.1-10.2.7" ∈ pci_requirements.map Prod.fst → False) ∨
    (complianceStatus (sampleFindings "t") "10.5.2" ≠ "✗ Non-Compliant"
      ∧ "10.2.1" ∈ get_non_compliant_requirements (sampleFindings "t")) := by
  refine Or.inr ⟨?_, ?_⟩
  · intro hc
    have h := (c4_verbatim_clause_matching (sampleFindings "t") "10.5.2" (by decide)).1.mp hc
    revert h
    decide
  · exact (c4_verbatim_clause_matching (sampleFindings "t") "10.2.1" (by decide)).2.mpr
      (by decide)

/-- C5: the recommendation deriver outputs the fixed order CloudTrail-enable,
CloudTrail-multiregion, S3-logging, CloudWatch-retention, RDS-logging; each
of the five recommendations is present iff its condition holds on the input,
and no other recommendation is ever emitted. -/
theorem c5_recommendation_order (f : FindingsReport) :
    ((generate_recommendations f).map (fun r => r.category) =
      (if f.cloudtrail.enabled = false then ["CloudTrail"] else [])
      ++ (if f.cloudtrail.multi_region = false then ["CloudTrail"] else [])
      ++ (if f.s3_logging.buckets_without_logging ≠ [] then ["S3"] else [])
      ++ (if f.cloudwatch_logs.log_groups_without_retention ≠ [] then ["CloudWatch"] else [])
      ++ (if f.rds_logging.instances_without_logging ≠ [] then ["RDS"] else []))
    ∧ ((∃ r ∈ generate_recommendations f, r.title = "Enable CloudTrail")
        ↔ f.cloudtrail.enabled = false)
    ∧ ((∃ r ∈ generate_recommendations f, r.title = "Enable Multi-Region CloudTrail")
        ↔ f.cloudtrail.multi_region = false)
    ∧ ((∃ r ∈ generate_recommendations f, r.title = "Enable S3 Access Logging")
        ↔ f.s3_logging.buckets_without_logging ≠ [])
    ∧ ((∃ r ∈ generate_recommendations f, r.title = "Set Log Retention Policies")
        ↔ f.cloudwatch_logs.log_groups_without_retention ≠ [])
    ∧ ((∃ r ∈ generate_recommendations f, r.title = "Enable RDS CloudWatch Logging")
        ↔ f.rds_logging.instances_without_logging ≠ [])
    ∧ (∀ r ∈ generate_recommendations f,
        r.title ∈ ["Enable CloudTrail", "Enable Multi-Region CloudTrail",
          "Enable S3 Access Logging", "Set Log Retention Policies",
          "Enable RDS CloudWatch Logging"]) := by
  unfold generate_recommendations
  split_ifs <;> simp_all


/-- Witness for C5 at the sample findings: CloudTrail is disabled there, so
the CloudTrail-enable recommendation is present. -/
theorem c5_recommendation_order_witness :
    ∃ r ∈ generate_recommendations (sampleFindings "2024-01-01T00:00:00"),
      r.title = "Enable CloudTrail" :=
  (c5_recommendation_order (sampleFindings "2024-01-01T00:00:00")).2.1.mpr rfl

end AwsLogReview
